import Mathlib

/-!
Verification development for the rtp-llm request-admission / KV-cache
block scheduler and the fastertransformer `Tensor` metadata functions.

The `Tensor` part is a shallow embedding of
`src/fastertransformer/cuda/Tensor.cc`.  The scheduler part
(`CacheManager`, `GenerateStream`, `FIFOScheduler`) is modelled from the
specification, with its observable behaviour pinned down by the
scenarios of `maga_transformer/cpp/schedulers/test/FIFOSchedulerTest.cc`.
-/

namespace RtpLlm

/-! ## Tensor (from src/fastertransformer/cuda/Tensor.cc) -/

/-- Data types of `fastertransformer::DataType` appearing in `Tensor.cc`. -/
inductive DataType where
  | TYPE_INVALID
  | TYPE_BOOL
  | TYPE_UINT8
  | TYPE_UINT16
  | TYPE_UINT32
  | TYPE_UINT64
  | TYPE_INT8
  | TYPE_INT16
  | TYPE_INT32
  | TYPE_INT64
  | TYPE_BF16
  | TYPE_FP16
  | TYPE_FP32
  | TYPE_FP64
  | TYPE_BYTES
  | TYPE_FP8_E4M3
deriving DecidableEq, Repr

/-- `Tensor::getTypeSize` (Tensor.cc:358-379): a lookup in a
`std::unordered_map<DataType, size_t>` via `type_map.at(type)`.  The map
has no entry for `TYPE_INVALID`, so `at` throws `std::out_of_range`
there — modelled as `none`.  Entries use `sizeof` of the C type;
`TYPE_BF16` and `TYPE_FP8_E4M3` are present under `ENABLE_BF16` /
`ENABLE_FP8`. -/
def DataType.getTypeSize : DataType → Option Nat
  | .TYPE_INVALID => none
  | .TYPE_BOOL => some 1
  | .TYPE_UINT8 => some 1
  | .TYPE_UINT16 => some 2
  | .TYPE_UINT32 => some 4
  | .TYPE_UINT64 => some 8
  | .TYPE_INT8 => some 1
  | .TYPE_INT16 => some 2
  | .TYPE_INT32 => some 4
  | .TYPE_INT64 => some 8
  | .TYPE_BF16 => some 2
  | .TYPE_FP16 => some 2
  | .TYPE_FP32 => some 4
  | .TYPE_FP64 => some 8
  | .TYPE_BYTES => some 1
  | .TYPE_FP8_E4M3 => some 1

/-- `size_t` multiplication: wraps modulo `2^64`. -/
def sizeTMul (a b : Nat) : Nat := a * b % 2 ^ 64

/-- Metadata of `fastertransformer::Tensor`: `dataNull` models
`data_ == nullptr`, `shape` models `shape_`, `type` models `type_`. -/
structure Tensor where
  dataNull : Bool
  shape : List Nat
  type : DataType
deriving DecidableEq, Repr

/-- `Tensor::Tensor()` — "a none tensor": `data_ = nullptr`,
`shape_ = {}`, `type_ = TYPE_INVALID`. -/
def Tensor.noneTensor : Tensor :=
  { dataNull := true, shape := [], type := DataType.TYPE_INVALID }

/-- `Tensor::size()`: `0` if `data_ == nullptr || shape_.size() == 0`,
else `std::accumulate(shape_.begin(), shape_.end(), (size_t)1,
multiplies<size_t>)` — the accumulation is in `size_t`, so each
multiplication wraps modulo `2^64`. -/
def Tensor.size (t : Tensor) : Nat :=
  if t.dataNull || t.shape.isEmpty then 0
  else t.shape.foldl sizeTMul 1

/-- `Tensor::sizeBytes()`: `size() * Tensor::getTypeSize(type())` in
`size_t`; `none` when `getTypeSize` throws (`TYPE_INVALID`). -/
def Tensor.sizeBytes (t : Tensor) : Option Nat :=
  match t.type.getTypeSize with
  | some k => some (sizeTMul t.size k)
  | none => none

/-! ## CacheConfig / CacheManager

Modelled from the spec: `CacheConfig` and `CacheManager` live in
`maga_transformer/cpp/cache/`, which is not under `src/` (only
`CacheConfigCreator.h` and the scheduler test are).  Field order follows
the constructor calls `CacheConfig(layer_num, block_nums,
local_head_num_kv, size_per_head, seq_size_per_block, dtype)` in
`FIFOSchedulerTest.cc`. -/

structure CacheConfig where
  layerNum : Nat
  blockNums : Nat
  localHeadNumKv : Nat
  sizePerHead : Nat
  seqSizePerBlock : Nat
  dtype : DataType
deriving DecidableEq, Repr

/-- `ceil(a / b)` on naturals, the block-count formula
`ceil(len / block_token_count)`. -/
def ceilDiv (a b : Nat) : Nat := (a + b - 1) / b

/-- The reuse index: entries map a full-block-aligned token prefix to the
block ids backing it (content-addressed prefix cache). -/
def ReuseIndex : Type := List (List Nat × List Nat)

/-- Modelled from the spec: the cache manager owns the block pool (here
just its free list) and the reuse index.  Block ids range over
`[0, blockNums)`; block `0` is the reserved sentinel. -/
structure CacheManager where
  config : CacheConfig
  freeBlocks : List Nat
  reuseIndex : List (List Nat × List Nat)

/-- Modelled from the spec: a fresh cache manager.  One block is reserved
as a sentinel and never handed out, so the free list is
`[1, …, blockNums − 1]`. -/
def mkCacheManager (cfg : CacheConfig) : CacheManager :=
  { config := cfg
    freeBlocks := List.range' 1 (cfg.blockNums - 1)
    reuseIndex := [] }

/-- `CacheManager::freeBlockNums()`: length of the free list. -/
def CacheManager.freeBlockNums (cm : CacheManager) : Nat :=
  cm.freeBlocks.length

/-- Blocks required to back `len` token positions:
`ceil(len / block_token_count)`. -/
def CacheManager.needBlocks (cm : CacheManager) (len : Nat) : Nat :=
  ceilDiv len cm.config.seqSizePerBlock

/-- All block ids pinned by the reuse index. -/
def CacheManager.indexBlocks (cm : CacheManager) : List Nat :=
  (cm.reuseIndex.map Prod.snd).flatten

/-- Pop `k` blocks from the free list; atomic: mutates nothing on
failure (`BlockPool::malloc`). -/
def CacheManager.mallocBlocks (cm : CacheManager) (k : Nat) :
    Option (CacheManager × List Nat) :=
  if k ≤ cm.freeBlocks.length then
    some ({ cm with freeBlocks := cm.freeBlocks.drop k }, cm.freeBlocks.take k)
  else none

/-- Return one block to the free list unless it is pinned by the reuse
index (`BlockPool::free` as observable through `freeBlockNums`). -/
def CacheManager.freeBlock (cm : CacheManager) (b : Nat) : CacheManager :=
  if cm.indexBlocks.contains b then cm
  else { cm with freeBlocks := cm.freeBlocks ++ [b] }

/-- Free a list of blocks in order. -/
def CacheManager.freeBlocksList (cm : CacheManager) (bs : List Nat) : CacheManager :=
  bs.foldl CacheManager.freeBlock cm

/-- Longest resident full-block token prefix of `tokens` in the reuse
index, returning its blocks (`ReuseIndex::tryReuse`). -/
def reuseMatch (idx : List (List Nat × List Nat)) (tokens : List Nat) : List Nat :=
  idx.foldl
    (fun best e =>
      if tokens.take e.fst.length == e.fst && best.length < e.snd.length
      then e.snd else best)
    []

/-! ## GenerateStream

Modelled from the spec: the per-request state machine of
`maga_transformer/cpp/dataclass/GenerateStream` (not under `src/`);
fields follow spec §3 and the accessors used by `FIFOSchedulerTest.cc`
(`stopped()`, `stopReason()`, `finished()`, `seq_length_`). -/

structure GenerateStream where
  inputTokens : List Nat
  seqLength : Nat
  blocks : List Nat
  reuseCache : Bool
  finished : Bool
  stopped : Bool
  stopReason : String
deriving DecidableEq, Repr

/-- A freshly constructed stream: `seq_length` starts at the prompt
length, no blocks, not finished, not stopped, empty stop reason. -/
def newStream (tokens : List Nat) (reuse : Bool) : GenerateStream :=
  { inputTokens := tokens, seqLength := tokens.length, blocks := []
    reuseCache := reuse, finished := false, stopped := false, stopReason := "" }

/-- The canonical cache-exhaustion stop reason (test fixtures match this
literal). -/
def stopLiteral : String := "can not be add input queue"

/-- `setStop`: mark the stream stopped with the given reason. -/
def setStop (s : GenerateStream) (r : String) : GenerateStream :=
  { s with stopped := true, stopReason := r }

/-- `setFinished` of the test driver. -/
def setFinished (s : GenerateStream) : GenerateStream :=
  { s with finished := true }

/-- Blocks the stream still needs to back `seq_length` positions:
`ceil(seq_length / block_token_count) − |blocks|`. -/
def nextNeedBlockNums (cm : CacheManager) (s : GenerateStream) : Nat :=
  cm.needBlocks s.seqLength - s.blocks.length

/-- Modelled from the spec: `CacheManager::initCacheForStream`.  Required
blocks are `ceil(seq_length / block_token_count)`; when
`reuse_cache_enabled` and the stream holds no blocks yet, the reuse
index contributes the longest matching full-block prefix (with its pin
turned into a reference); the remainder comes from the free list.
Atomic: mutates nothing on failure. -/
def initKVCache (cm : CacheManager) (s : GenerateStream) :
    Option (CacheManager × GenerateStream) :=
  let need := cm.needBlocks s.seqLength
  let reused :=
    if s.reuseCache && s.blocks.isEmpty
    then (reuseMatch cm.reuseIndex s.inputTokens).take need
    else []
  let held := s.blocks ++ reused
  match cm.mallocBlocks (need - held.length) with
  | some (cm2, fresh) => some (cm2, { s with blocks := held ++ fresh })
  | none => none

/-- Modelled from the spec: `growStreamByOne` / `incrKVCache` — allocate
the blocks a running stream needs to cover its current `seq_length`. -/
def incrKVCache (cm : CacheManager) (s : GenerateStream) :
    Option (CacheManager × GenerateStream) :=
  match cm.mallocBlocks (nextNeedBlockNums cm s) with
  | some (cm2, fresh) => some (cm2, { s with blocks := s.blocks ++ fresh })
  | none => none

/-- Modelled from the spec: publish every full block of a cleanly
finishing reuse-enabled stream into the reuse index (trailing partial
block is discarded). -/
def insertReuse (cm : CacheManager) (s : GenerateStream) : CacheManager :=
  let cnt := s.seqLength / cm.config.seqSizePerBlock
  if s.reuseCache && s.finished && !s.stopped && cnt != 0 then
    { cm with reuseIndex :=
        cm.reuseIndex ++ [(s.inputTokens.take (cnt * cm.config.seqSizePerBlock),
                           s.blocks.take cnt)] }
  else cm

/-- Modelled from the spec: `releaseResource` of a terminal stream —
publish to the reuse index when applicable, return unpinned blocks to
the free list, clear the block list. -/
def releaseResource (cm : CacheManager) (s : GenerateStream) :
    CacheManager × GenerateStream :=
  let cm2 := insertReuse cm s
  (cm2.freeBlocksList s.blocks, { s with blocks := [] })

/-- Modelled from the spec: `tryReleaseKVBlock(n)` of a preemption
victim — release the last `n` blocks of its block list (as forced by the
`freeBlockNums` observations of `testIncrKVCacheLackMem`, the victim
releases only the deficit, not its whole list). -/
def tryReleaseKVBlock (cm : CacheManager) (s : GenerateStream) (n : Nat) :
    CacheManager × GenerateStream :=
  let keep := s.blocks.length - n
  (cm.freeBlocksList (s.blocks.drop keep), { s with blocks := s.blocks.take keep })

/-! ## FIFOScheduler

Modelled from the spec: `maga_transformer/cpp/schedulers/FIFOScheduler`
(not under `src/`).  Streams live in a store indexed by `Nat` ids so
that the test's observations of stream objects after they leave the
queues can be stated. -/

structure SchedulerState where
  cacheManager : CacheManager
  streams : Nat → GenerateStream
  waiting : List Nat
  running : List Nat

/-- Point update of the stream store. -/
def updStream (f : Nat → GenerateStream) (i : Nat) (s : GenerateStream) :
    Nat → GenerateStream :=
  fun j => if j = i then s else f j

/-- A fresh scheduler over a fresh cache manager: empty queues, every
store slot holding a default (inactive) stream. -/
def initState (cfg : CacheConfig) : SchedulerState :=
  { cacheManager := mkCacheManager cfg
    streams := fun _ => newStream [] false
    waiting := [], running := [] }

/-- `FIFOScheduler::enqueue`: append the stream to the waiting queue. -/
def enqueue (st : SchedulerState) (i : Nat) (s : GenerateStream) : SchedulerState :=
  { st with streams := updStream st.streams i s, waiting := st.waiting ++ [i] }

/-- Reap phase (`evictDoneStreams`): release the resources of every
finished or stopped stream in the queue and drop it; returns the
surviving queue. -/
def evictDone (st : SchedulerState) : List Nat → SchedulerState × List Nat
  | [] => (st, [])
  | i :: rest =>
    let s := st.streams i
    if s.stopped || s.finished then
      let r := releaseResource st.cacheManager s
      evictDone { st with cacheManager := r.fst
                          streams := updStream st.streams i r.snd } rest
    else
      let r := evictDone st rest
      (r.fst, i :: r.snd)

/-- Total block deficit of the running set (`runningNextBlockNum`
compared with the free list). -/
def runningNextBlockNum (st : SchedulerState) : Nat :=
  (st.running.map (fun i => nextNeedBlockNums st.cacheManager (st.streams i))).sum

/-- Fallback loop: while the running set's deficit exceeds the free
list, the youngest running stream (the last admitted) releases the
deficit from the tail of its block list and returns to the front of the
waiting queue. -/
def fallbackLoop : Nat → SchedulerState → SchedulerState
  | 0, st => st
  | fuel + 1, st =>
    if st.running.isEmpty then st
    else if runningNextBlockNum st ≤ st.cacheManager.freeBlockNums then st
    else
      match st.running.getLast? with
      | none => st
      | some v =>
        let need := runningNextBlockNum st - st.cacheManager.freeBlockNums
        let r := tryReleaseKVBlock st.cacheManager (st.streams v) need
        fallbackLoop fuel
          { st with cacheManager := r.fst
                    streams := updStream st.streams v r.snd
                    running := st.running.dropLast
                    waiting := v :: st.waiting }

/-- Growth phase: every surviving running stream allocates the blocks
its `seq_length` now requires; a stream whose growth fails is stopped
with the canonical reason (it is reaped on the next tick). -/
def growRunning (st : SchedulerState) : List Nat → SchedulerState × List Nat
  | [] => (st, [])
  | i :: rest =>
    match incrKVCache st.cacheManager (st.streams i) with
    | some (cm2, s2) =>
      let r := growRunning { st with cacheManager := cm2
                                     streams := updStream st.streams i s2 } rest
      (r.fst, i :: r.snd)
    | none =>
      let s2 := setStop (st.streams i) stopLiteral
      let r := growRunning { st with streams := updStream st.streams i s2 } rest
      (r.fst, i :: r.snd)

/-- Admission phase (`scheduleNew`): admit waiting streams in FIFO order
while their cache initializes; when the head cannot fit, it is stopped
with the canonical reason if nothing is running and nothing was admitted
this tick (it could never fit), and otherwise admission stops to
preserve FIFO.  Returns (state, kept waiting queue, admitted ids). -/
def scheduleNew (st : SchedulerState) :
    List Nat → Bool → Bool → SchedulerState × List Nat × List Nat
  | [], _, _ => (st, [], [])
  | i :: rest, noRun, admitted =>
    match initKVCache st.cacheManager (st.streams i) with
    | some (cm2, s2) =>
      let r := scheduleNew { st with cacheManager := cm2
                                     streams := updStream st.streams i s2 }
                 rest noRun true
      (r.fst, r.snd.fst, i :: r.snd.snd)
    | none =>
      if noRun && !admitted then
        let s2 := setStop (st.streams i) stopLiteral
        let r := scheduleNew { st with streams := updStream st.streams i s2 }
                   rest noRun admitted
        (r.fst, i :: r.snd.fst, r.snd.snd)
      else
        (st, i :: rest, [])

/-- One tick of `FIFOScheduler::schedule()`: reap terminal streams from
both queues, run the fallback loop, grow the running set, admit from
waiting.  The batch handed to the executor is the resulting `running`
list. -/
def schedule (st : SchedulerState) : SchedulerState :=
  let r1 := evictDone st st.waiting
  let st1 := { r1.fst with waiting := r1.snd }
  let r2 := evictDone st1 st1.running
  let st2 := { r2.fst with running := r2.snd }
  let st3 := fallbackLoop (st2.running.length + 1) st2
  let r3 := growRunning st3 st3.running
  let st4 := { r3.fst with running := r3.snd }
  let r4 := scheduleNew st4 st4.waiting st4.running.isEmpty false
  { r4.fst with waiting := r4.snd.fst, running := st4.running ++ r4.snd.snd }

/-- `waitingStreamsSize()`. -/
def waitingStreamsSize (st : SchedulerState) : Nat := st.waiting.length

/-- `runningStreamsSize()`. -/
def runningStreamsSize (st : SchedulerState) : Nat := st.running.length

/-- Number of distinct blocks currently pinned by the reuse index. -/
def reusePinnedNums (st : SchedulerState) : Nat :=
  st.cacheManager.indexBlocks.dedup.length

/-- The events driving the scheduler in the test scenarios: client
enqueue, executor `seq_length_++`, client/executor `setFinished`, and a
`schedule()` tick. -/
inductive ExecAct where
  | enq (i : Nat) (tokens : List Nat) (reuse : Bool)
  | bump (i : Nat)
  | finish (i : Nat)
  | tick
deriving DecidableEq, Repr

/-- Apply one event. -/
def applyAct (st : SchedulerState) : ExecAct → SchedulerState
  | .enq i tokens reuse => enqueue st i (newStream tokens reuse)
  | .bump i =>
    let s := st.streams i
    { st with streams := updStream st.streams i { s with seqLength := s.seqLength + 1 } }
  | .finish i => { st with streams := updStream st.streams i (setFinished (st.streams i)) }
  | .tick => schedule st

/-- Apply a list of events in order. -/
def applyActs (st : SchedulerState) (acts : List ExecAct) : SchedulerState :=
  acts.foldl applyAct st

/-- The cache configuration used throughout `FIFOSchedulerTest.cc`:
one layer, `n` blocks, one kv head, head size 4, `btc` tokens per
block, fp16. -/
def testConfig (n btc : Nat) : CacheConfig :=
  { layerNum := 1, blockNums := n, localHeadNumKv := 1, sizePerHead := 4
    seqSizePerBlock := btc, dtype := DataType.TYPE_FP16 }

/-- The stop-reason discipline: the reason is the canonical cache
exhaustion literal exactly on stopped streams, and empty otherwise. -/
def StreamInv (s : GenerateStream) : Prop :=
  s.stopReason = if s.stopped then stopLiteral else ""

/-- All streams of the store satisfy the stop-reason discipline. -/
def InvAll (st : SchedulerState) : Prop :=
  ∀ i, StreamInv (st.streams i)

/-! ## Theorems -/

theorem foldl_sizeTMul_eq (l : List Nat) (a : Nat) :
    l.foldl sizeTMul (a % 2 ^ 64) = a * l.prod % 2 ^ 64 := by
  induction l generalizing a with
  | nil => simp
  | cons b l ih =>
    simp only [List.foldl_cons, sizeTMul, Nat.mod_mul_mod, List.prod_cons]
    rw [ih (a * b), Nat.mul_assoc]

/-- C10 counterexample: a default-constructed tensor has
`type_ = TYPE_INVALID`, for which `getTypeSize`'s map has no entry, so
`sizeBytes()` throws `std::out_of_range` (modelled `none`) instead of
returning 0. -/
theorem claim_C10_cex :
    Tensor.noneTensor.sizeBytes = none
    ∧ ¬ Tensor.noneTensor.sizeBytes = some 0 := by
  exact ⟨rfl, by simp [Tensor.sizeBytes, Tensor.noneTensor, DataType.getTypeSize]⟩

/-- C10 amended: `Tensor::size()` is `0` whenever the data pointer is
null or the shape vector is empty, regardless of the shape's contents,
and otherwise the product of the shape dimensions in `size_t` arithmetic
(reduced modulo `2^64`); whenever the element type has an entry in the
size map, `sizeBytes()` is `size()` times the element size (mod `2^64`)
and is `0` for a null-data tensor; for a default-constructed tensor
(`TYPE_INVALID`) `size()` is `0` but `sizeBytes()` throws
`std::out_of_range` rather than returning 0. -/
theorem claim_C10_amended :
    (∀ t : Tensor, t.dataNull = true ∨ t.shape = [] → t.size = 0)
    ∧ (∀ t : Tensor, t.dataNull = false → t.shape ≠ [] →
        t.size = t.shape.prod % 2 ^ 64)
    ∧ (∀ (t : Tensor) (k : Nat), t.type.getTypeSize = some k →
        t.sizeBytes = some (t.size * k % 2 ^ 64))
    ∧ (∀ (t : Tensor) (k : Nat), t.dataNull = true → t.type.getTypeSize = some k →
        t.sizeBytes = some 0)
    ∧ Tensor.noneTensor.size = 0
    ∧ Tensor.noneTensor.sizeBytes = none := by
  refine ⟨?_, ?_, ?_, ?_, rfl, rfl⟩
  · intro t h
    rcases h with h | h <;> simp [Tensor.size, h]
  · intro t h1 h2
    have h3 := foldl_sizeTMul_eq t.shape 1
    rw [Nat.mod_eq_of_lt (by norm_num)] at h3
    simp [Tensor.size, h1, h2, h3]
  · intro t k hk
    simp [Tensor.sizeBytes, hk, sizeTMul]
  · intro t k h hk
    simp [Tensor.sizeBytes, hk, sizeTMul, Tensor.size, h]

theorem claim_C10_amended_witness :
    Tensor.size { dataNull := true, shape := [5, 7], type := DataType.TYPE_FP16 } = 0
    ∧ Tensor.size { dataNull := false, shape := [2, 3], type := DataType.TYPE_FP32 }
        = ([2, 3] : List Nat).prod % 2 ^ 64
    ∧ Tensor.sizeBytes { dataNull := true, shape := [5], type := DataType.TYPE_FP16 }
        = some 0 :=
  ⟨claim_C10_amended.1 _ (Or.inl rfl),
   claim_C10_amended.2.1 _ rfl (by decide),
   claim_C10_amended.2.2.2.1 _ 2 rfl rfl⟩

/-- C7: a fresh cache manager reports `freeBlockNums() = blockNums − 1`:
one sentinel block is reserved and never handed out (4 blocks report 3
free, 11 report 10). -/
theorem claim_C7 :
    (∀ cfg : CacheConfig, (mkCacheManager cfg).freeBlockNums = cfg.blockNums - 1)
    ∧ (mkCacheManager (testConfig 4 8)).freeBlockNums = 3
    ∧ (mkCacheManager (testConfig 11 2)).freeBlockNums = 10 := by
  refine ⟨fun cfg => ?_, rfl, rfl⟩
  simp [mkCacheManager, CacheManager.freeBlockNums]

/-- C9: `schedule()` on an idle scheduler (both queues empty) is a no-op
identity and returns an empty batch, so repeated calls change nothing. -/
theorem claim_C9 (st : SchedulerState) (hw : st.waiting = [])
    (hr : st.running = []) :
    schedule st = st ∧ (schedule st).running = [] := by
  rcases st with ⟨cm, f, w, r⟩
  dsimp only at hw hr
  subst hw; subst hr
  exact ⟨rfl, rfl⟩

theorem claim_C9_witness :
    schedule (initState (testConfig 4 8)) = initState (testConfig 4 8)
    ∧ (schedule (initState (testConfig 4 8))).running = [] :=
  claim_C9 (initState (testConfig 4 8)) rfl rfl

/-- C3: with 3 blocks, `block_token_count = 2` and a 4-token prompt, the
first `schedule()` admits the stream with `freeBlockNums() = 0`; after
`seq_length` advances to 5, the next `schedule()` stops the stream with
the canonical reason and leaves `freeBlockNums() = 1`, and the tick
after that returns an empty batch with `freeBlockNums() = 2`. -/
theorem claim_C3 :
    (applyActs (initState (testConfig 3 2))
        [.enq 1 [1, 2, 3, 4] false, .tick]).cacheManager.freeBlockNums = 0
    ∧ (applyActs (initState (testConfig 3 2))
        [.enq 1 [1, 2, 3, 4] false, .tick]).running = [1]
    ∧ ((applyActs (initState (testConfig 3 2))
        [.enq 1 [1, 2, 3, 4] false, .tick, .bump 1, .tick]).streams 1).stopped = true
    ∧ ((applyActs (initState (testConfig 3 2))
        [.enq 1 [1, 2, 3, 4] false, .tick, .bump 1, .tick]).streams 1).stopReason
        = "can not be add input queue"
    ∧ (applyActs (initState (testConfig 3 2))
        [.enq 1 [1, 2, 3, 4] false, .tick, .bump 1, .tick]).running = []
    ∧ (applyActs (initState (testConfig 3 2))
        [.enq 1 [1, 2, 3, 4] false, .tick, .bump 1, .tick]).cacheManager.freeBlockNums = 1
    ∧ (applyActs (initState (testConfig 3 2))
        [.enq 1 [1, 2, 3, 4] false, .tick, .bump 1, .tick, .tick]).running = []
    ∧ (applyActs (initState (testConfig 3 2))
        [.enq 1 [1, 2, 3, 4] false, .tick, .bump 1, .tick, .tick]).cacheManager.freeBlockNums
        = 2 := by
  decide

/-- C1 counterexample: immediately after the `schedule()` tick that
stops a stream for cache exhaustion during decode growth, the stream is
in a terminal phase yet still holds a block, and the free list has only
1 of its 2 blocks back — refuting synchronous release on the terminal
transition. -/
theorem claim_C1_cex :
    ((applyActs (initState (testConfig 3 2))
        [.enq 1 [1, 2, 3, 4] false, .tick, .bump 1, .tick]).streams 1).stopped = true
    ∧ ((applyActs (initState (testConfig 3 2))
        [.enq 1 [1, 2, 3, 4] false, .tick, .bump 1, .tick]).streams 1).blocks ≠ []
    ∧ (applyActs (initState (testConfig 3 2))
        [.enq 1 [1, 2, 3, 4] false, .tick, .bump 1, .tick]).cacheManager.freeBlockNums
        = 1 := by
  decide

/-- C1 amended: a terminal stream's blocks are released at the reap
phase of the *next* `schedule()` tick, not synchronously on the
transition: the stream stopped for cache exhaustion still holds one
block right after the stopping tick (`freeBlockNums() = 1`), and only
after the following tick are all its blocks back on the free list
(`freeBlockNums() = 2`); likewise a finished stream's blocks are free
after the tick that reaps it. -/
theorem claim_C1_amended :
    ((applyActs (initState (testConfig 3 2))
        [.enq 1 [1, 2, 3, 4] false, .tick, .bump 1, .tick]).streams 1).blocks = [1]
    ∧ (applyActs (initState (testConfig 3 2))
        [.enq 1 [1, 2, 3, 4] false, .tick, .bump 1, .tick]).cacheManager.freeBlockNums = 1
    ∧ ((applyActs (initState (testConfig 3 2))
        [.enq 1 [1, 2, 3, 4] false, .tick, .bump 1, .tick, .tick]).streams 1).blocks = []
    ∧ (applyActs (initState (testConfig 3 2))
        [.enq 1 [1, 2, 3, 4] false, .tick, .bump 1, .tick, .tick]).cacheManager.freeBlockNums
        = 2
    ∧ (applyActs (initState (testConfig 3 2))
        [.enq 1 [1, 2, 3, 4] false, .tick, .bump 1, .tick, .tick]).waiting = []
    ∧ (applyActs (initState (testConfig 3 2))
        [.enq 1 [1, 2, 3, 4] false, .tick, .bump 1, .tick, .tick]).running = []
    ∧ ((applyActs (initState (testConfig 4 8))
        [.enq 1 [1] false, .tick, .finish 1, .tick]).streams 1).blocks = []
    ∧ (applyActs (initState (testConfig 4 8))
        [.enq 1 [1] false, .tick, .finish 1, .tick]).cacheManager.freeBlockNums = 3 := by
  decide

/-- C4 counterexample: a preemption victim does not always lose its
whole block list — with a single running stream whose growth fails, the
fallback victim releases only the one-block deficit and keeps a block
(and, its re-admission failing, ends the tick stopped rather than
waiting unstopped). -/
theorem claim_C4_cex :
    ((applyActs (initState (testConfig 3 2))
        [.enq 1 [1, 2, 3, 4] false, .tick, .bump 1, .tick]).streams 1).blocks = [1]
    ∧ ((applyActs (initState (testConfig 3 2))
        [.enq 1 [1, 2, 3, 4] false, .tick, .bump 1, .tick]).streams 1).stopped
        = true := by
  decide

/-- C4 amended: the preemption victim is the youngest running stream
(the last admitted); it releases the block deficit from the tail of its
block list (in this scenario all of its blocks), retains its
`input_tokens` and `seq_length`, and returns to the waiting queue; with
two 4-token streams over 5 blocks both advanced by one token, the second
`schedule()` returns a batch of 1 with the younger stream waiting, the
older running, neither stopped, and `freeBlockNums() = 1`; after the
older stream finishes, the preempted stream is re-admitted on the next
tick, re-entering prefill with `ceil(seq_length / block_token_count)`
blocks and `freeBlockNums() = 1`. -/
theorem claim_C4_amended :
    (applyActs (initState (testConfig 5 2))
        [.enq 1 [1, 2, 3, 4] false, .enq 2 [1, 2, 3, 4] false, .tick,
         .bump 1, .bump 2, .tick]).running = [1]
    ∧ (applyActs (initState (testConfig 5 2))
        [.enq 1 [1, 2, 3, 4] false, .enq 2 [1, 2, 3, 4] false, .tick,
         .bump 1, .bump 2, .tick]).waiting = [2]
    ∧ ((applyActs (initState (testConfig 5 2))
        [.enq 1 [1, 2, 3, 4] false, .enq 2 [1, 2, 3, 4] false, .tick,
         .bump 1, .bump 2, .tick]).streams 1).stopped = false
    ∧ ((applyActs (initState (testConfig 5 2))
        [.enq 1 [1, 2, 3, 4] false, .enq 2 [1, 2, 3, 4] false, .tick,
         .bump 1, .bump 2, .tick]).streams 2).stopped = false
    ∧ ((applyActs (initState (testConfig 5 2))
        [.enq 1 [1, 2, 3, 4] false, .enq 2 [1, 2, 3, 4] false, .tick,
         .bump 1, .bump 2, .tick]).streams 2).blocks = []
    ∧ ((applyActs (initState (testConfig 5 2))
        [.enq 1 [1, 2, 3, 4] false, .enq 2 [1, 2, 3, 4] false, .tick,
         .bump 1, .bump 2, .tick]).streams 2).inputTokens = [1, 2, 3, 4]
    ∧ ((applyActs (initState (testConfig 5 2))
        [.enq 1 [1, 2, 3, 4] false, .enq 2 [1, 2, 3, 4] false, .tick,
         .bump 1, .bump 2, .tick]).streams 2).seqLength = 5
    ∧ (applyActs (initState (testConfig 5 2))
        [.enq 1 [1, 2, 3, 4] false, .enq 2 [1, 2, 3, 4] false, .tick,
         .bump 1, .bump 2, .tick]).cacheManager.freeBlockNums = 1
    ∧ (applyActs (initState (testConfig 5 2))
        [.enq 1 [1, 2, 3, 4] false, .enq 2 [1, 2, 3, 4] false, .tick,
         .bump 1, .bump 2, .tick, .finish 1, .tick]).running = [2]
    ∧ (applyActs (initState (testConfig 5 2))
        [.enq 1 [1, 2, 3, 4] false, .enq 2 [1, 2, 3, 4] false, .tick,
         .bump 1, .bump 2, .tick, .finish 1, .tick]).waiting = []
    ∧ ((applyActs (initState (testConfig 5 2))
        [.enq 1 [1, 2, 3, 4] false, .enq 2 [1, 2, 3, 4] false, .tick,
         .bump 1, .bump 2, .tick, .finish 1, .tick]).streams 2).blocks.length
        = ceilDiv 5 2
    ∧ (applyActs (initState (testConfig 5 2))
        [.enq 1 [1, 2, 3, 4] false, .enq 2 [1, 2, 3, 4] false, .tick,
         .bump 1, .bump 2, .tick, .finish 1, .tick]).cacheManager.freeBlockNums
        = 1 := by
  decide

/-- C5 counterexample: the stream whose prompt can never fit is stopped
by the first `schedule()` but is *not* removed from the waiting queue in
that tick — `waitingStreamsSize()` is still 1 (it is reaped by the next
tick). -/
theorem claim_C5_cex :
    ((applyActs (initState (testConfig 2 2))
        [.enq 1 [1, 2, 3] false, .tick]).streams 1).stopped = true
    ∧ waitingStreamsSize (applyActs (initState (testConfig 2 2))
        [.enq 1 [1, 2, 3] false, .tick]) = 1 := by
  decide

/-- C2 counterexample: after the first reuse-enabled stream finishes and
one `schedule()` runs, the reuse index retains *two* pinned blocks (the
two full prefix blocks), not exactly one — `freeBlockNums()` drops from
10 usable to 8 precisely because two blocks stay pinned. -/
theorem claim_C2_cex :
    reusePinnedNums (applyActs (initState (testConfig 11 2))
        [.enq 1 [1, 2, 3, 4, 5] true, .tick, .finish 1, .tick]) = 2
    ∧ ¬ reusePinnedNums (applyActs (initState (testConfig 11 2))
        [.enq 1 [1, 2, 3, 4, 5] true, .tick, .finish 1, .tick]) = 1
    ∧ (applyActs (initState (testConfig 11 2))
        [.enq 1 [1, 2, 3, 4, 5] true, .tick, .finish 1, .tick]).cacheManager.freeBlockNums
        = 8 := by
  decide

/-- C2 amended: with 11 blocks and `block_token_count = 2`, the first
reuse-enabled stream with prompt `[1..5]` consumes 3 new blocks leaving
`freeBlockNums() = 7`; after it finishes and one `schedule()`, its full
blocks are published to the reuse index and `freeBlockNums() = 8`, with
exactly *two* blocks retained pinned by reuse (the trailing partial
block is freed); a second reuse-enabled stream with prompt `[1..7]`
reuses the 2 full prefix blocks and allocates 2 new blocks, leaving
`freeBlockNums() = 6`; after it finishes and one `schedule()`,
`freeBlockNums() = 7`. -/
theorem claim_C2_amended :
    (applyActs (initState (testConfig 11 2))
        [.enq 1 [1, 2, 3, 4, 5] true, .tick]).cacheManager.freeBlockNums = 7
    ∧ ((applyActs (initState (testConfig 11 2))
        [.enq 1 [1, 2, 3, 4, 5] true, .tick]).streams 1).blocks.length = 3
    ∧ (applyActs (initState (testConfig 11 2))
        [.enq 1 [1, 2, 3, 4, 5] true, .tick, .finish 1, .tick]).cacheManager.freeBlockNums
        = 8
    ∧ reusePinnedNums (applyActs (initState (testConfig 11 2))
        [.enq 1 [1, 2, 3, 4, 5] true, .tick, .finish 1, .tick]) = 2
    ∧ (applyActs (initState (testConfig 11 2))
        [.enq 1 [1, 2, 3, 4, 5] true, .tick, .finish 1, .tick]).cacheManager.indexBlocks
        = [1, 2]
    ∧ ((applyActs (initState (testConfig 11 2))
        [.enq 1 [1, 2, 3, 4, 5] true, .tick, .finish 1, .tick,
         .enq 2 [1, 2, 3, 4, 5, 6, 7] true, .tick]).streams 2).blocks = [1, 2, 4, 5]
    ∧ (applyActs (initState (testConfig 11 2))
        [.enq 1 [1, 2, 3, 4, 5] true, .tick, .finish 1, .tick,
         .enq 2 [1, 2, 3, 4, 5, 6, 7] true, .tick]).cacheManager.freeBlockNums = 6
    ∧ (applyActs (initState (testConfig 11 2))
        [.enq 1 [1, 2, 3, 4, 5] true, .tick, .finish 1, .tick,
         .enq 2 [1, 2, 3, 4, 5, 6, 7] true, .tick, .finish 2, .tick]).cacheManager.freeBlockNums
        = 7 := by
  decide

/-- C8 counterexample: the free-block round trip fails for a
reuse-enabled stream — before enqueue `freeBlockNums() = 10`, but after
enqueue, schedule, finish and one more `schedule()` it is 8, because the
published prefix blocks stay pinned by the reuse index. -/
theorem claim_C8_cex :
    (initState (testConfig 11 2)).cacheManager.freeBlockNums = 10
    ∧ (applyActs (initState (testConfig 11 2))
        [.enq 1 [1, 2, 3, 4, 5] true, .tick, .finish 1, .tick]).cacheManager.freeBlockNums
        = 8
    ∧ ¬ (applyActs (initState (testConfig 11 2))
        [.enq 1 [1, 2, 3, 4, 5] true, .tick, .finish 1, .tick]).cacheManager.freeBlockNums
        = (initState (testConfig 11 2)).cacheManager.freeBlockNums := by
  decide

theorem mallocBlocks_fail (cm : CacheManager) (k : Nat)
    (h : cm.freeBlocks.length < k) : cm.mallocBlocks k = none := by
  simp [CacheManager.mallocBlocks]
  omega

theorem freeBlocksList_no_index (cfgc : CacheConfig) (fl bs : List Nat) :
    CacheManager.freeBlocksList
        { config := cfgc, freeBlocks := fl, reuseIndex := [] } bs
      = { config := cfgc, freeBlocks := fl ++ bs, reuseIndex := [] } := by
  induction bs generalizing fl with
  | nil => simp [CacheManager.freeBlocksList]
  | cons b bs ih =>
    have hb : CacheManager.freeBlock
        { config := cfgc, freeBlocks := fl, reuseIndex := [] } b
        = { config := cfgc, freeBlocks := fl ++ [b], reuseIndex := [] } := by
      simp [CacheManager.freeBlock, CacheManager.indexBlocks]
    simp only [CacheManager.freeBlocksList, List.foldl_cons] at ih ⊢
    rw [hb, ih]
    simp

/-- C5 amended: a stream whose required block count exceeds the usable
pool capacity is stopped by the first `schedule()` with the canonical
reason, never gets a block, and is excluded from the batch;
`freeBlockNums()` is unchanged; it remains in the waiting queue until
the following `schedule()` removes it. -/
theorem claim_C5_amended (cfg : CacheConfig) (toks : List Nat)
    (h : cfg.blockNums - 1 < ceilDiv toks.length cfg.seqSizePerBlock) :
    ((applyActs (initState cfg) [.enq 1 toks false, .tick]).streams 1).stopped = true
    ∧ ((applyActs (initState cfg) [.enq 1 toks false, .tick]).streams 1).stopReason
        = "can not be add input queue"
    ∧ ((applyActs (initState cfg) [.enq 1 toks false, .tick]).streams 1).blocks = []
    ∧ (applyActs (initState cfg) [.enq 1 toks false, .tick]).running = []
    ∧ (applyActs (initState cfg) [.enq 1 toks false, .tick]).waiting = [1]
    ∧ (applyActs (initState cfg) [.enq 1 toks false, .tick]).cacheManager.freeBlockNums
        = cfg.blockNums - 1
    ∧ (applyActs (initState cfg) [.enq 1 toks false, .tick, .tick]).waiting = []
    ∧ (applyActs (initState cfg) [.enq 1 toks false, .tick, .tick]).running = []
    ∧ (applyActs (initState cfg) [.enq 1 toks false, .tick, .tick]).cacheManager.freeBlockNums
        = cfg.blockNums - 1 := by
  have hm : (mkCacheManager cfg).mallocBlocks
      (ceilDiv toks.length cfg.seqSizePerBlock) = none := by
    apply mallocBlocks_fail
    simp [mkCacheManager]
    omega
  simp only [mkCacheManager] at hm
  simp [applyActs, applyAct, enqueue, initState, schedule, evictDone, newStream,
    fallbackLoop, growRunning, scheduleNew, initKVCache, updStream,
    CacheManager.needBlocks, mkCacheManager, hm, setStop, stopLiteral,
    releaseResource, insertReuse, CacheManager.freeBlocksList,
    CacheManager.freeBlockNums]

theorem claim_C5_amended_witness :
    ((applyActs (initState (testConfig 2 2)) [.enq 1 [1, 2, 3] false, .tick]).streams
        1).stopped = true :=
  (claim_C5_amended (testConfig 2 2) [1, 2, 3] (by decide)).1

/-- C8 amended: for every *reuse-disabled* stream that fits the pool,
enqueueing it, scheduling it, marking it finished and running one more
`schedule()` returns `freeBlockNums()` to exactly its pre-enqueue value,
with both queues empty afterwards. -/
theorem claim_C8_amended (cfg : CacheConfig) (toks : List Nat)
    (h : ceilDiv toks.length cfg.seqSizePerBlock ≤ cfg.blockNums - 1) :
    (applyActs (initState cfg)
        [.enq 1 toks false, .tick, .finish 1, .tick]).cacheManager.freeBlockNums
      = (initState cfg).cacheManager.freeBlockNums
    ∧ (applyActs (initState cfg) [.enq 1 toks false, .tick, .finish 1, .tick]).waiting = []
    ∧ (applyActs (initState cfg) [.enq 1 toks false, .tick, .finish 1, .tick]).running
      = [] := by
  have hm : (mkCacheManager cfg).mallocBlocks
      (ceilDiv toks.length cfg.seqSizePerBlock)
      = some ({ config := cfg,
                freeBlocks := (List.range' 1 (cfg.blockNums - 1)).drop
                  (ceilDiv toks.length cfg.seqSizePerBlock),
                reuseIndex := [] },
              (List.range' 1 (cfg.blockNums - 1)).take
                (ceilDiv toks.length cfg.seqSizePerBlock)) := by
    simp [CacheManager.mallocBlocks, mkCacheManager]
    omega
  simp only [mkCacheManager] at hm
  simp [applyActs, applyAct, enqueue, initState, schedule, evictDone, newStream,
    fallbackLoop, growRunning, scheduleNew, initKVCache, updStream,
    CacheManager.needBlocks, mkCacheManager, hm, setStop, setFinished,
    releaseResource, insertReuse, freeBlocksList_no_index,
    CacheManager.freeBlockNums]
  omega

theorem claim_C8_amended_witness :
    (applyActs (initState (testConfig 4 8))
        [.enq 1 [1] false, .tick, .finish 1, .tick]).cacheManager.freeBlockNums
      = (initState (testConfig 4 8)).cacheManager.freeBlockNums :=
  (claim_C8_amended (testConfig 4 8) [1] (by decide)).1

theorem streamInv_blocks (s : GenerateStream) (bs : List Nat)
    (h : StreamInv s) : StreamInv { s with blocks := bs } := h

theorem streamInv_newStream (toks : List Nat) (r : Bool) :
    StreamInv (newStream toks r) := by
  simp [StreamInv, newStream]

theorem streamInv_setStop (s : GenerateStream) :
    StreamInv (setStop s stopLiteral) := by
  simp [StreamInv, setStop]

theorem invAll_upd {st : Nat → GenerateStream} {i : Nat} {s : GenerateStream}
    (hf : ∀ j, StreamInv (st j)) (hs : StreamInv s) :
    ∀ j, StreamInv (updStream st i s j) := by
  intro j
  unfold updStream
  split
  · exact hs
  · exact hf j

theorem incrKVCache_stream {cm : CacheManager} {s : GenerateStream}
    {cm2 : CacheManager} {s2 : GenerateStream}
    (h : incrKVCache cm s = some (cm2, s2)) :
    s2.stopped = s.stopped ∧ s2.stopReason = s.stopReason := by
  unfold incrKVCache at h
  split at h
  · rename_i heq
    injection h with h1
    injection h1 with h1 h2
    subst h2
    exact ⟨rfl, rfl⟩
  · exact absurd h (by simp)

theorem initKVCache_stream {cm : CacheManager} {s : GenerateStream}
    {cm2 : CacheManager} {s2 : GenerateStream}
    (h : initKVCache cm s = some (cm2, s2)) :
    s2.stopped = s.stopped ∧ s2.stopReason = s.stopReason := by
  unfold initKVCache at h
  split at h <;> dsimp only at h <;> split at h <;>
    first
      | (injection h with h1; injection h1 with h1 h2; subst h2; exact ⟨rfl, rfl⟩)
      | exact absurd h (by simp)

theorem invAll_evictDone (q : List Nat) :
    ∀ st : SchedulerState, InvAll st → InvAll (evictDone st q).1 := by
  induction q with
  | nil => intro st h; exact h
  | cons i rest ih =>
    intro st h
    simp only [evictDone]
    split
    · exact ih _ (invAll_upd h (streamInv_blocks _ _ (h i)))
    · exact ih st h

theorem invAll_fallbackLoop (fuel : Nat) :
    ∀ st : SchedulerState, InvAll st → InvAll (fallbackLoop fuel st) := by
  induction fuel with
  | zero => intro st h; exact h
  | succ n ih =>
    intro st h
    simp only [fallbackLoop]
    split
    · exact h
    · split
      · exact h
      · split
        · exact h
        · exact ih _ (invAll_upd h (streamInv_blocks _ _ (h _)))

theorem invAll_growRunning (q : List Nat) :
    ∀ st : SchedulerState, InvAll st → InvAll (growRunning st q).1 := by
  induction q with
  | nil => intro st h; exact h
  | cons i rest ih =>
    intro st h
    simp only [growRunning]
    split
    · rename_i cm2 s2 heq
      apply ih
      apply invAll_upd h
      have hs := incrKVCache_stream heq
      have hi := h i
      unfold StreamInv at hi ⊢
      rw [hs.1, hs.2]
      exact hi
    · exact ih _ (invAll_upd h (streamInv_setStop _))

theorem invAll_scheduleNew (q : List Nat) :
    ∀ (st : SchedulerState) (noRun admitted : Bool), InvAll st →
      InvAll (scheduleNew st q noRun admitted).1 := by
  induction q with
  | nil => intro st _ _ h; exact h
  | cons i rest ih =>
    intro st noRun admitted h
    simp only [scheduleNew]
    split
    · rename_i cm2 s2 heq
      apply ih
      apply invAll_upd h
      have hs := initKVCache_stream heq
      have hi := h i
      unfold StreamInv at hi ⊢
      rw [hs.1, hs.2]
      exact hi
    · split
      · exact ih _ _ _ (invAll_upd h (streamInv_setStop _))
      · exact h

theorem invAll_schedule (st : SchedulerState) (h : InvAll st) :
    InvAll (schedule st) := by
  unfold schedule
  exact invAll_scheduleNew _ _ _ _
    (invAll_growRunning _ _ (invAll_fallbackLoop _ _
      (invAll_evictDone _ _ (invAll_evictDone _ _ h))))

theorem invAll_applyAct (st : SchedulerState) (a : ExecAct) (h : InvAll st) :
    InvAll (applyAct st a) := by
  cases a with
  | enq i tokens reuse => exact invAll_upd h (streamInv_newStream _ _)
  | bump i => exact invAll_upd h (h i)
  | finish i => exact invAll_upd h (h i)
  | tick => exact invAll_schedule st h

theorem invAll_applyActs (acts : List ExecAct) :
    ∀ st : SchedulerState, InvAll st → InvAll (applyActs st acts) := by
  induction acts with
  | nil => intro st h; exact h
  | cons a rest ih => intro st h; exact ih _ (invAll_applyAct st a h)

/-- C6: in every state reachable by enqueues, executor updates and
`schedule()` ticks from a fresh scheduler, a stream that is not stopped
has the empty stop reason, and every stopped stream (all stops in this
core are cache-exhaustion stops) carries exactly the literal
`"can not be add input queue"`. -/
theorem claim_C6 (cfg : CacheConfig) (acts : List ExecAct) (i : Nat) :
    (((applyActs (initState cfg) acts).streams i).stopped = false →
      ((applyActs (initState cfg) acts).streams i).stopReason = "")
    ∧ (((applyActs (initState cfg) acts).streams i).stopped = true →
      ((applyActs (initState cfg) acts).streams i).stopReason
        = "can not be add input queue") := by
  have h0 : InvAll (initState cfg) := fun _ => streamInv_newStream [] false
  have h := invAll_applyActs acts (initState cfg) h0 i
  unfold StreamInv at h
  constructor
  · intro hs; rw [hs] at h; simpa using h
  · intro hs; rw [hs] at h; simpa [stopLiteral] using h

theorem claim_C6_witness :
    ((applyActs (initState (testConfig 2 2))
        [.enq 1 [1, 2, 3] false, .tick]).streams 1).stopReason
      = "can not be add input queue"
    ∧ ((applyActs (initState (testConfig 2 2))
        [.enq 1 [1, 2, 3] false, .tick]).streams 2).stopReason = "" :=
  ⟨(claim_C6 (testConfig 2 2) [.enq 1 [1, 2, 3] false, .tick] 1).2 (by decide),
   (claim_C6 (testConfig 2 2) [.enq 1 [1, 2, 3] false, .tick] 2).1 (by decide)⟩

end RtpLlm
